import Mathlib

/-!
Shallow embedding of Battery_Watcher_Free.py.

The program polls the OS battery sensor, classifies the sample as
low / high / normal against two thresholds, and on a status change
(rate limited to one notification per 10 seconds) sends a Telegram
message and a Windows toast.  External effects are modelled as explicit
parameters: the sensor reading is an optional record, the single HTTP
request outcome is a three-valued oracle, and wall-clock time is a
rational passed into each cycle.
-/

namespace BatteryWatcher

/-- Sentinel constant of the psutil library: remaining time unknown. -/
def POWER_TIME_UNKNOWN : Int := -1

/-- Sentinel constant of the psutil library: on AC power, remaining time unlimited. -/
def POWER_TIME_UNLIMITED : Int := -2

/-- Python format specifier 02d applied to the minute and second fields:
zero-pad a nonnegative single digit to width two, otherwise the plain decimal form. -/
def pad2 (n : Int) : String :=
  if 0 ≤ n ∧ n < 10 then "0" ++ toString n else toString n

/-- Embedding of secs_to_hms (source lines 30 to 43).  A missing value or a
psutil sentinel renders as unknown; a value above one week renders as
no driver estimate; otherwise two divmod steps produce H:MM:SS.  Python divmod
floors, hence Int.fdiv and Int.fmod. -/
def secs_to_hms (secs : Option Int) : String :=
  match secs with
  | none => "unknown"
  | some s =>
    if s = POWER_TIME_UNKNOWN ∨ s = POWER_TIME_UNLIMITED then "unknown"
    else if s > 60 * 60 * 24 * 7 then "no driver estimate"
    else
      let mm := Int.fdiv s 60
      let ss := Int.fmod s 60
      let hh := Int.fdiv mm 60
      let mm2 := Int.fmod mm 60
      toString hh ++ ":" ++ pad2 mm2 ++ ":" ++ pad2 ss

/-- Python round applied to the exact value of the sensor float: round to the
nearest integer, ties to even, then int conversion (source line 52). -/
def pythonRound (q : ℚ) : Int :=
  let f := ⌊q⌋
  let r := q - f
  if r < 1 / 2 then f
  else if 1 / 2 < r then f + 1
  else if f % 2 = 0 then f else f + 1

/-- Raw reading returned by psutil.sensors_battery when a battery is present. -/
structure SensorBattery where
  percent : ℚ
  power_plugged : Bool
  secsleft : Option Int
deriving DecidableEq

/-- Record built by check_battery_level (source lines 63 to 68). -/
structure BatteryInfo where
  status : String
  percent : Int
  plugged : Bool
  time_hms : String
deriving DecidableEq

/-- Embedding of check_battery_level (source lines 46 to 68).  The sensor read
is passed in as an optional raw reading; a missing battery yields none.  The
classifier evaluates the rules in source order with first match winning. -/
def check_battery_level (low_threshold high_threshold : Int)
    (bat : Option SensorBattery) : Option BatteryInfo :=
  match bat with
  | none => none
  | some bat =>
    let percent := pythonRound bat.percent
    let plugged := bat.power_plugged
    let human := secs_to_hms bat.secsleft
    let status :=
      if plugged = false ∧ percent ≤ low_threshold then "low"
      else if plugged = true ∧ percent ≥ high_threshold then "high"
      else "normal"
    some ⟨status, percent, plugged, human⟩

/-- Outcome of the single HTTP POST, as seen by send_telegram_message: the
request succeeds, raises urllib.error.HTTPError, or raises any other
exception (network error, timeout). -/
inductive NetOutcome
  | ok
  | httpError
  | otherError
deriving DecidableEq

/-- Observable behaviour of send_telegram_message: the boolean it returns and
whether a network request was performed at all. -/
structure SendResult where
  result : Bool
  attempted : Bool
deriving DecidableEq

/-- Embedding of send_telegram_message (source lines 74 to 97).  Python string
truthiness: an empty token or chat id short-circuits to False before any
request is built; otherwise the request runs once and every exception is
caught and turned into False. -/
def send_telegram_message (net : NetOutcome)
    (bot_token chat_id text : String) : SendResult :=
  if bot_token = "" ∨ chat_id = "" then ⟨false, false⟩
  else
    match net with
    | .ok => ⟨true, true⟩
    | .httpError => ⟨false, true⟩
    | .otherError => ⟨false, true⟩

/-- Process-wide mutable state of main (source lines 122 to 123). -/
structure LoopState where
  last_status : Option String
  last_notify : ℚ
deriving DecidableEq

/-- Observable outcome of one iteration of the while loop in main. -/
structure CycleResult where
  state : LoopState
  fired : Bool
  telegram_called : Bool
  toast_called : Bool
deriving DecidableEq

/-- Embedding of one iteration of the while loop of main (source lines 127 to
148).  The sensor reading and the current wall-clock time are inputs.  When a
sample exists the status is compared with last_status and the 10 second rate
limit with the current time; on fire, the Telegram call is reached only when
both hard-coded credentials are non-empty strings, the toast call is always
reached, and last_notify is set to the current time.  last_status is updated
whenever a sample exists. -/
def main_cycle (bot_token chat_id : String) (low_threshold high_threshold : Int)
    (st : LoopState) (bat : Option SensorBattery) (now : ℚ) : CycleResult :=
  match check_battery_level low_threshold high_threshold bat with
  | none => ⟨st, false, false, false⟩
  | some info =>
    if some info.status ≠ st.last_status ∧ now - st.last_notify > 10 then
      { state := ⟨some info.status, now⟩
        fired := true
        telegram_called := decide (bot_token ≠ "" ∧ chat_id ≠ "")
        toast_called := true }
    else
      ⟨⟨some info.status, st.last_notify⟩, false, false, false⟩

/-! Helper lemmas shared by several claims. -/

/-- Equation lemma: check_battery_level on a present battery. -/
theorem check_battery_level_some (low high : Int) (bat : SensorBattery) :
    check_battery_level low high (some bat) = some
      ⟨if bat.power_plugged = false ∧ pythonRound bat.percent ≤ low then "low"
        else if bat.power_plugged = true ∧ pythonRound bat.percent ≥ high then "high"
        else "normal",
       pythonRound bat.percent, bat.power_plugged, secs_to_hms bat.secsleft⟩ := rfl

/-- Equation lemma: one loop iteration with no battery detected. -/
theorem main_cycle_none (tok chat : String) (low high : Int)
    (st : LoopState) (now : ℚ) :
    main_cycle tok chat low high st none now = ⟨st, false, false, false⟩ := rfl

/-- Equation lemma: one loop iteration on a sample classified as info. -/
theorem main_cycle_eq (tok chat : String) (low high : Int) (st : LoopState)
    (bat : Option SensorBattery) (now : ℚ) (info : BatteryInfo)
    (h : check_battery_level low high bat = some info) :
    main_cycle tok chat low high st bat now =
      if some info.status ≠ st.last_status ∧ now - st.last_notify > 10 then
        ⟨⟨some info.status, now⟩, true, decide (tok ≠ "" ∧ chat ≠ ""), true⟩
      else ⟨⟨some info.status, st.last_notify⟩, false, false, false⟩ := by
  unfold main_cycle
  rw [h]

/-- Python round applied to an exact integer is that integer. -/
theorem pythonRound_intCast (n : Int) : pythonRound (n : ℚ) = n := by
  simp [pythonRound]

/-- Concrete sample evaluation shared by loop witnesses: 50 percent, plugged,
no driver estimate of time, classified as normal. -/
theorem check_battery_level_sample_50 :
    check_battery_level 20 85 (some ⟨50, true, none⟩) =
      some ⟨"normal", 50, true, "unknown"⟩ := by
  rw [check_battery_level_some]
  have h : pythonRound ((⟨50, true, none⟩ : SensorBattery).percent) = 50 := by
    have := pythonRound_intCast 50
    exact_mod_cast this
  simp [h, secs_to_hms]

/-- C2: secs_to_hms maps 3661 to 1:01:01; maps a missing value and the
unknown/unlimited sentinels to unknown; and maps any value strictly greater
than 604800 seconds to the string no driver estimate. -/
theorem C2_time_formatting :
    secs_to_hms (some 3661) = "1:01:01" ∧
    secs_to_hms none = "unknown" ∧
    secs_to_hms (some POWER_TIME_UNKNOWN) = "unknown" ∧
    secs_to_hms (some POWER_TIME_UNLIMITED) = "unknown" ∧
    (∀ s : Int, s > 604800 → secs_to_hms (some s) = "no driver estimate") := by
  refine ⟨rfl, rfl, rfl, rfl, ?_⟩
  intro s hs
  show (if s = POWER_TIME_UNKNOWN ∨ s = POWER_TIME_UNLIMITED then "unknown"
    else if s > 60 * 60 * 24 * 7 then "no driver estimate"
    else
      let mm := Int.fdiv s 60
      let ss := Int.fmod s 60
      let hh := Int.fdiv mm 60
      let mm2 := Int.fmod mm 60
      toString hh ++ ":" ++ pad2 mm2 ++ ":" ++ pad2 ss) = "no driver estimate"
  rw [if_neg, if_pos]
  · show s > 60 * 60 * 24 * 7
    omega
  · unfold POWER_TIME_UNKNOWN POWER_TIME_UNLIMITED
    omega

/-- Witness for C2 at the concrete input 700000. -/
theorem C2_witness : secs_to_hms (some 700000) = "no driver estimate" :=
  C2_time_formatting.2.2.2.2 700000 (by decide)

/-- C3: with an empty bot token or an empty chat id, send_telegram_message
returns false and performs no network request, for every message text and
whatever the network would have answered. -/
theorem C3_empty_credentials (net : NetOutcome) (tok chat text : String)
    (h : tok = "" ∨ chat = "") :
    send_telegram_message net tok chat text = ⟨false, false⟩ := by
  unfold send_telegram_message
  rw [if_pos h]

/-- Witness for C3 at a concrete input with an empty token. -/
theorem C3_witness :
    send_telegram_message NetOutcome.ok "" "779056769" "hello" = ⟨false, false⟩ :=
  C3_empty_credentials NetOutcome.ok "" "779056769" "hello" (Or.inl rfl)

/-- C4: send_telegram_message always returns a boolean (it is a total
function into SendResult); the result is true exactly when the credentials
are non-empty and the request succeeds, and every HTTP error or other
exception outcome yields false. -/
theorem C4_error_containment (net : NetOutcome) (tok chat text : String) :
    ((send_telegram_message net tok chat text).result = true ↔
      tok ≠ "" ∧ chat ≠ "" ∧ net = NetOutcome.ok) ∧
    (net ≠ NetOutcome.ok →
      (send_telegram_message net tok chat text).result = false) := by
  unfold send_telegram_message
  split_ifs with h
  · refine ⟨⟨fun hr => absurd hr (by simp), ?_⟩, fun _ => rfl⟩
    rintro ⟨h1, h2, -⟩
    cases h with
    | inl h => exact absurd h h1
    | inr h => exact absurd h h2
  · push_neg at h
    cases net <;> simp_all

/-- Witness for C4 at a concrete erroring input. -/
theorem C4_witness :
    (send_telegram_message NetOutcome.httpError "t" "c" "x").result = false :=
  (C4_error_containment NetOutcome.httpError "t" "c" "x").2 (by decide)

/-- C1: the classifier inside check_battery_level evaluates the rules in
order with first match winning: unplugged with percent at most the low
threshold gives low; otherwise plugged with percent at least the high
threshold gives high; otherwise normal.  Both comparisons are inclusive, as
the boundary conjuncts state. -/
theorem C1_classifier_rules (low high : Int) (bat : SensorBattery) :
    ∃ info : BatteryInfo,
      check_battery_level low high (some bat) = some info ∧
      (bat.power_plugged = false ∧ pythonRound bat.percent ≤ low →
        info.status = "low") ∧
      (¬(bat.power_plugged = false ∧ pythonRound bat.percent ≤ low) →
        bat.power_plugged = true ∧ pythonRound bat.percent ≥ high →
        info.status = "high") ∧
      (¬(bat.power_plugged = false ∧ pythonRound bat.percent ≤ low) →
        ¬(bat.power_plugged = true ∧ pythonRound bat.percent ≥ high) →
        info.status = "normal") ∧
      (bat.power_plugged = false → pythonRound bat.percent = low →
        info.status = "low") ∧
      (bat.power_plugged = true → pythonRound bat.percent = high →
        info.status = "high") := by
  refine ⟨_, check_battery_level_some low high bat, ?_, ?_, ?_, ?_, ?_⟩ <;>
    intros <;> simp only [BatteryInfo.status] <;> split_ifs <;> first
    | rfl
    | tauto
    | (exfalso; simp_all)

/-- Witness for C1 at the concrete sample 15 percent, unplugged, thresholds
20 and 85: the status is low. -/
theorem C1_witness :
    ∃ info : BatteryInfo,
      check_battery_level 20 85 (some ⟨15, false, none⟩) = some info ∧
      info.status = "low" := by
  obtain ⟨info, heq, hlow, -, -, -, -⟩ := C1_classifier_rules 20 85 ⟨15, false, none⟩
  refine ⟨info, heq, hlow ⟨rfl, ?_⟩⟩
  have h : pythonRound ((⟨15, false, none⟩ : SensorBattery).percent) = 15 := by
    have := pythonRound_intCast 15
    exact_mod_cast this
  rw [h]
  omega

/-- C5: when two consecutive cycles both obtain a sample and the classified
status of the second equals that of the first, the second cycle does not
fire a notification, whatever the elapsed time. -/
theorem C5_same_status_no_send (tok chat : String) (low high : Int)
    (st : LoopState) (b1 b2 : SensorBattery) (t1 t2 : ℚ)
    (i1 i2 : BatteryInfo)
    (h1 : check_battery_level low high (some b1) = some i1)
    (h2 : check_battery_level low high (some b2) = some i2)
    (hsame : i2.status = i1.status) :
    (main_cycle tok chat low high
      (main_cycle tok chat low high st (some b1) t1).state (some b2) t2).fired
      = false := by
  have hst : (main_cycle tok chat low high st (some b1) t1).state.last_status
      = some i1.status := by
    rw [main_cycle_eq tok chat low high st (some b1) t1 i1 h1]
    split_ifs <;> rfl
  rw [main_cycle_eq tok chat low high _ (some b2) t2 i2 h2]
  rw [if_neg]
  rintro ⟨hdiff, -⟩
  exact hdiff (by rw [hsame, hst])

/-- Witness for C5: two cycles on the identical normal sample; the second
does not fire. -/
theorem C5_witness :
    (main_cycle "t" "c" 20 85
      (main_cycle "t" "c" 20 85 ⟨none, 0⟩ (some ⟨50, true, none⟩) 100).state
      (some ⟨50, true, none⟩) 200).fired = false :=
  C5_same_status_no_send "t" "c" 20 85 ⟨none, 0⟩ ⟨50, true, none⟩
    ⟨50, true, none⟩ 100 200 ⟨"normal", 50, true, "unknown"⟩
    ⟨"normal", 50, true, "unknown"⟩
    check_battery_level_sample_50 check_battery_level_sample_50 rfl

/-- C6: on a cycle whose status differs from last_status, if fewer than 10
seconds have elapsed since last_notify, nothing fires, neither channel is
called, and last_notify is left unchanged. -/
theorem C6_rate_limit (tok chat : String) (low high : Int) (st : LoopState)
    (b : SensorBattery) (now : ℚ) (info : BatteryInfo)
    (h : check_battery_level low high (some b) = some info)
    (hdiff : some info.status ≠ st.last_status)
    (hrecent : now - st.last_notify < 10) :
    (main_cycle tok chat low high st (some b) now).fired = false ∧
    (main_cycle tok chat low high st (some b) now).telegram_called = false ∧
    (main_cycle tok chat low high st (some b) now).toast_called = false ∧
    (main_cycle tok chat low high st (some b) now).state.last_notify
      = st.last_notify := by
  rw [main_cycle_eq tok chat low high st (some b) now info h]
  rw [if_neg]
  · exact ⟨rfl, rfl, rfl, rfl⟩
  · rintro ⟨-, hgap⟩
    linarith

/-- Witness for C6: status changes from low to normal but only 5 seconds
have elapsed, so nothing is sent. -/
theorem C6_witness :
    (main_cycle "t" "c" 20 85 ⟨some "low", 0⟩ (some ⟨50, true, none⟩) 5).fired
      = false ∧
    (main_cycle "t" "c" 20 85 ⟨some "low", 0⟩
      (some ⟨50, true, none⟩) 5).telegram_called = false ∧
    (main_cycle "t" "c" 20 85 ⟨some "low", 0⟩
      (some ⟨50, true, none⟩) 5).toast_called = false ∧
    (main_cycle "t" "c" 20 85 ⟨some "low", 0⟩
      (some ⟨50, true, none⟩) 5).state.last_notify = (0 : ℚ) :=
  C6_rate_limit "t" "c" 20 85 ⟨some "low", 0⟩ ⟨50, true, none⟩ 5
    ⟨"normal", 50, true, "unknown"⟩ check_battery_level_sample_50
    (by simp) (by norm_num)

/-- C7: from the initial state with last_status none and last_notify 0, a
first cycle that obtains a sample fires a notification whenever the current
wall-clock time exceeds 10 seconds past the epoch: every classified status
differs from none. -/
theorem C7_first_cycle_fires (tok chat : String) (low high : Int)
    (b : SensorBattery) (now : ℚ) (hnow : now > 10) :
    (main_cycle tok chat low high ⟨none, 0⟩ (some b) now).fired = true := by
  rw [main_cycle_eq tok chat low high ⟨none, 0⟩ (some b) now _
    (check_battery_level_some low high b)]
  rw [if_pos]
  exact ⟨by simp, by simpa using hnow⟩

/-- Witness for C7 at the concrete normal sample and time 100. -/
theorem C7_witness :
    (main_cycle "t" "c" 20 85 ⟨none, 0⟩ (some ⟨50, true, none⟩) 100).fired
      = true :=
  C7_first_cycle_fires "t" "c" 20 85 ⟨50, true, none⟩ 100 (by norm_num)

/-- C8: a cycle with no battery sample leaves the whole loop state, both
last_status and last_notify, unchanged; and whenever a sample exists the
cycle sets last_status to the classified status. -/
theorem C8_no_sample_frame (tok chat : String) (low high : Int)
    (st : LoopState) (now : ℚ) :
    (main_cycle tok chat low high st none now).state = st ∧
    ∀ b : SensorBattery, ∃ info : BatteryInfo,
      check_battery_level low high (some b) = some info ∧
      (main_cycle tok chat low high st (some b) now).state.last_status
        = some info.status := by
  refine ⟨rfl, fun b => ⟨_, check_battery_level_some low high b, ?_⟩⟩
  rw [main_cycle_eq tok chat low high st (some b) now _
    (check_battery_level_some low high b)]
  split_ifs <;> rfl

/-- Range of Python round: a reading within 0 and 100 rounds to an integer
within 0 and 100. -/
theorem pythonRound_range (q : ℚ) (h0 : 0 ≤ q) (h1 : q ≤ 100) :
    0 ≤ pythonRound q ∧ pythonRound q ≤ 100 := by
  have hf0 : (0 : ℤ) ≤ ⌊q⌋ := Int.floor_nonneg.mpr h0
  have hf1 : ⌊q⌋ ≤ 100 := by
    have h : ⌊q⌋ ≤ ⌊(100 : ℚ)⌋ := Int.floor_le_floor h1
    simpa using h
  have hfle : (⌊q⌋ : ℚ) ≤ q := Int.floor_le q
  simp only [pythonRound]
  split_ifs with hr1 hr2 hev
  · exact ⟨hf0, hf1⟩
  · refine ⟨by omega, ?_⟩
    have hlt : (⌊q⌋ : ℚ) < 100 := by linarith
    have h : ⌊q⌋ < 100 := by exact_mod_cast hlt
    omega
  · exact ⟨hf0, hf1⟩
  · refine ⟨by omega, ?_⟩
    have heq : q - (⌊q⌋ : ℚ) = 1 / 2 := le_antisymm (not_lt.mp hr2) (not_lt.mp hr1)
    have hlt : (⌊q⌋ : ℚ) < 100 := by linarith
    have h : ⌊q⌋ < 100 := by exact_mod_cast hlt
    omega

/-- C9 counterexample: the code never clamps, so a raw sensor reading of 150
produces a percent field of 150, outside 0 to 100; the claim as stated over
every sensor reading is false. -/
theorem C9_counterexample :
    ¬ ∀ (low high : Int) (bat : SensorBattery) (info : BatteryInfo),
        check_battery_level low high (some bat) = some info →
        0 ≤ info.percent ∧ info.percent ≤ 100 := by
  intro h
  have hp : pythonRound ((150 : Int) : ℚ) = 150 := pythonRound_intCast 150
  have heval : check_battery_level 20 85 (some ⟨150, false, none⟩) =
      some ⟨"normal", 150, false, "unknown"⟩ := by
    rw [check_battery_level_some]
    have hp2 : pythonRound ((⟨150, false, none⟩ : SensorBattery).percent)
        = 150 := by exact_mod_cast hp
    norm_num [hp2, secs_to_hms]
  have hle := (h 20 85 ⟨150, false, none⟩ _ heval).2
  norm_num at hle

/-- C9 amended: the percent field is exactly the Python rounding of the raw
sensor reading, and whenever that raw reading lies within 0 and 100 the
rounded percent also lies within 0 and 100. -/
theorem C9_percent_range (low high : Int) (bat : SensorBattery)
    (h0 : 0 ≤ bat.percent) (h1 : bat.percent ≤ 100) :
    ∃ info : BatteryInfo,
      check_battery_level low high (some bat) = some info ∧
      info.percent = pythonRound bat.percent ∧
      0 ≤ info.percent ∧ info.percent ≤ 100 := by
  refine ⟨_, check_battery_level_some low high bat, rfl, ?_, ?_⟩
  · exact (pythonRound_range bat.percent h0 h1).1
  · exact (pythonRound_range bat.percent h0 h1).2

/-- Witness for C9 at the concrete reading 50, plugged, thresholds 20, 85. -/
theorem C9_witness :
    ∃ info : BatteryInfo,
      check_battery_level 20 85 (some ⟨50, true, none⟩) = some info ∧
      info.percent = pythonRound 50 ∧
      0 ≤ info.percent ∧ info.percent ≤ 100 :=
  C9_percent_range 20 85 ⟨50, true, none⟩ (by norm_num) (by norm_num)

/-- Width of the padded field: every value from 0 to 59 prints as exactly
two characters. -/
theorem pad2_length (n : Int) (h0 : 0 ≤ n) (h1 : n < 60) :
    (pad2 n).length = 2 := by
  have h : ∀ k : Fin 60, (pad2 ((k.val : Nat) : Int)).length = 2 := by decide
  have h2 := h ⟨n.toNat, by omega⟩
  rwa [Int.toNat_of_nonneg h0] at h2

/-- C10: on the non-sentinel range 0 to 604800 the formatter produces
H:MM:SS with zero-padded two-digit minute and second fields below 60, and
the three components recombine to the input. -/
theorem C10_hms_round_trip (s : Int) (h0 : 0 ≤ s) (h1 : s ≤ 604800) :
    ∃ hh mm ss : Int,
      secs_to_hms (some s) = toString hh ++ ":" ++ pad2 mm ++ ":" ++ pad2 ss ∧
      0 ≤ hh ∧ 0 ≤ mm ∧ mm < 60 ∧ 0 ≤ ss ∧ ss < 60 ∧
      hh * 3600 + mm * 60 + ss = s ∧
      (pad2 mm).length = 2 ∧ (pad2 ss).length = 2 := by
  have e1 : Int.fdiv s 60 = s / 60 := Int.fdiv_eq_ediv s (by norm_num)
  have e2 : Int.fmod s 60 = s % 60 := Int.fmod_eq_emod s (by norm_num)
  have e3 : Int.fdiv (Int.fdiv s 60) 60 = s / 60 / 60 := by
    rw [e1]
    exact Int.fdiv_eq_ediv _ (by norm_num)
  have e4 : Int.fmod (Int.fdiv s 60) 60 = s / 60 % 60 := by
    rw [e1]
    exact Int.fmod_eq_emod _ (by norm_num)
  refine ⟨s / 60 / 60, s / 60 % 60, s % 60, ?_, by omega, by omega, by omega,
    by omega, by omega, by omega, pad2_length _ (by omega) (by omega),
    pad2_length _ (by omega) (by omega)⟩
  show (if s = POWER_TIME_UNKNOWN ∨ s = POWER_TIME_UNLIMITED then "unknown"
      else if s > 60 * 60 * 24 * 7 then "no driver estimate"
      else toString (Int.fdiv (Int.fdiv s 60) 60) ++ ":" ++
        pad2 (Int.fmod (Int.fdiv s 60) 60) ++ ":" ++ pad2 (Int.fmod s 60))
    = toString (s / 60 / 60) ++ ":" ++ pad2 (s / 60 % 60) ++ ":" ++
      pad2 (s % 60)
  rw [if_neg, if_neg, e2, e3, e4]
  · omega
  · unfold POWER_TIME_UNKNOWN POWER_TIME_UNLIMITED
    omega

/-- Witness for C10 at the concrete input 3661. -/
theorem C10_witness :
    ∃ hh mm ss : Int,
      secs_to_hms (some 3661) =
        toString hh ++ ":" ++ pad2 mm ++ ":" ++ pad2 ss ∧
      0 ≤ hh ∧ 0 ≤ mm ∧ mm < 60 ∧ 0 ≤ ss ∧ ss < 60 ∧
      hh * 3600 + mm * 60 + ss = 3661 ∧
      (pad2 mm).length = 2 ∧ (pad2 ss).length = 2 :=
  C10_hms_round_trip 3661 (by norm_num) (by norm_num)

end BatteryWatcher
